import Mathlib

/-!
Verification development for the seqgra attribution-evaluation pipeline.

The definitions below are shallow embeddings of the Python code in
`seqgra/evaluator/saliencyevaluator.py`, `seqgra/learner/learner.py`,
`seqgra/learner/torch/torchdataset.py` and `seqgra/mischelper.py`.
Numeric tensor entries are modelled as rationals; numpy arrays are
modelled as a shape (a list of axis sizes) together with a total
indexing function on integer index lists.
-/

namespace Seqgra

/-- The deep-learning library of the bound learner
(`seqgra.constants.LibraryType`, values used in
`GradientBasedEvaluator._check_tensor_dimensions`). -/
inductive LibraryType where
  | tensorflow
  | torch
deriving DecidableEq

instance (ε α : Type) [DecidableEq ε] [DecidableEq α] :
    DecidableEq (Except ε α) := fun a b =>
  match a, b with
  | Except.error e₁, Except.error e₂ =>
    if h : e₁ = e₂ then Decidable.isTrue (by rw [h])
    else Decidable.isFalse (by intro hc; cases hc; exact h rfl)
  | Except.error _, Except.ok _ => Decidable.isFalse (by intro hc; cases hc)
  | Except.ok _, Except.error _ => Decidable.isFalse (by intro hc; cases hc)
  | Except.ok a₁, Except.ok a₂ =>
    if h : a₁ = a₂ then Decidable.isTrue (by rw [h])
    else Decidable.isFalse (by intro hc; cases hc; exact h rfl)

/-- The sequence space of the model (`seqgra.constants.SequenceSpaceType`):
DNA (4-letter alphabet) or protein (20-letter alphabet). -/
inductive SequenceSpaceType where
  | dna
  | protein
deriving DecidableEq

/-- Modelled from the spec: `seqgra.constants.PositionType.GRAMMAR` is not
under `src/`; per spec section 3 the grammar/causal position symbol of an
annotation string is `G`. -/
def grammarPositionChar : Char := 'G'

/-- Embedding of `self.relevance_threshold = 0.1`, set in
`GradientBasedEvaluator.__init__`. -/
def relevanceThreshold : ℚ := mkRat 1 10

/-- Maximum of two rationals, written with an explicit comparison so that
concrete instances evaluate. -/
def qMax (a b : ℚ) : ℚ := if a < b then b else a

/-- Python `np.max` over a vector: `none` on the empty vector (where numpy
raises), otherwise the maximum entry. -/
def npMax : List ℚ → Option ℚ
  | [] => none
  | x :: xs => some (xs.foldl qMax x)

/-- Embedding of `GradientBasedEvaluator.__get_agreement_group`: given the annotation
symbol at a position and the importance vector across channels at that
position, return the agreement group. `none` models the numpy error on an
empty importance vector. -/
def getAgreementGroup (threshold : ℚ) (annPos : Char) (v : List ℚ) :
    Option String :=
  match npMax v with
  | none => none
  | some m =>
    if annPos = grammarPositionChar then
      if m < threshold then some "FN" else some "TP"
    else
      if m < threshold then some "TN" else some "FP"

/-- Python `str(tuple(shape))` as used in the error messages of
`_check_tensor_dimensions` (Python prints e.g. `(2, 5, 1, 10)`). -/
def shapeStr (shape : List Nat) : String :=
  "(" ++ String.intercalate ", " (shape.map toString) ++ ")"

/-- Alphabet size per sequence space: 4 channels for DNA, 20 for protein
(the literals checked in `_check_tensor_dimensions`). -/
def alphabetSize : SequenceSpaceType → Nat
  | SequenceSpaceType.dna => 4
  | SequenceSpaceType.protein => 20

/-- The `expected_shape` string of `_check_tensor_dimensions`, the
library-dependent expected-shape description used in the rank error
message. -/
def expectedShapeDescription : LibraryType → String
  | LibraryType.tensorflow => "(N, W, C) or (N, 1, W, C)"
  | LibraryType.torch => "(N, C, W) or (N, C, 1, W)"

/-- Embedding of `GradientBasedEvaluator._check_tensor_dimensions`, acting on the shape
of the tensor.  Mirrors the Python control flow: library-dependent axis
positions, rank-3 and rank-4 channel checks, rank-4 height check, and the
catch-all rank error, with the exact error message strings. -/
def checkTensorDimensions (lib : LibraryType) (space : SequenceSpaceType)
    (shape : List Nat) : Except String Unit :=
  let expectedShape : String := expectedShapeDescription lib
  let channelDim : Nat :=
    match lib with
    | LibraryType.tensorflow => 2
    | LibraryType.torch => 1
  let channelDimWithHeight : Nat :=
    match lib with
    | LibraryType.tensorflow => 3
    | LibraryType.torch => 1
  let heightDim : Nat :=
    match lib with
    | LibraryType.tensorflow => 1
    | LibraryType.torch => 2
  if shape.length = 3 then
    match space with
    | SequenceSpaceType.dna =>
      if shape.getD channelDim 0 ≠ 4 then
        Except.error ("tensor shape invalid for DNA sequence space: expected 4 channels, got " ++ toString (shape.getD channelDim 0))
      else
        Except.ok ()
    | SequenceSpaceType.protein =>
      if shape.getD channelDim 0 ≠ 20 then
        Except.error ("tensor shape invalid for protein sequence space: expected 20 channels, got " ++ toString (shape.getD channelDim 0))
      else
        Except.ok ()
  else if shape.length = 4 then
    match space with
    | SequenceSpaceType.dna =>
      if shape.getD channelDimWithHeight 0 ≠ 4 then
        Except.error ("tensor shape invalid for DNA sequence space: expected 4 channels, got " ++ toString (shape.getD channelDimWithHeight 0))
      else if shape.getD heightDim 0 ≠ 1 then
        Except.error ("tensor shape invalid: expected height dimension size of none or 1, got " ++ toString (shape.getD heightDim 0))
      else
        Except.ok ()
    | SequenceSpaceType.protein =>
      if shape.getD channelDimWithHeight 0 ≠ 20 then
        Except.error ("tensor shape invalid for protein sequence space: expected 20 channels, got " ++ toString (shape.getD channelDimWithHeight 0))
      else if shape.getD heightDim 0 ≠ 1 then
        Except.error ("tensor shape invalid: expected height dimension size of none or 1, got " ++ toString (shape.getD heightDim 0))
      else
        Except.ok ()
  else
    Except.error ("tensor shape invalid: expected " ++ expectedShape ++ ", got " ++ shapeStr shape)

/-- Convention-dependent channel axis of a rank-3 tensor, as the claim
describes it (TensorFlow channel-last, Torch channel-first). -/
def channelAxisRank3 : LibraryType → Nat
  | LibraryType.tensorflow => 2
  | LibraryType.torch => 1

/-- Convention-dependent channel axis of a rank-4 tensor. -/
def channelAxisRank4 : LibraryType → Nat
  | LibraryType.tensorflow => 3
  | LibraryType.torch => 1

/-- Convention-dependent height axis of a rank-4 tensor. -/
def heightAxisRank4 : LibraryType → Nat
  | LibraryType.tensorflow => 1
  | LibraryType.torch => 2

/-- The agreement table exactly as the claim states it: `TP` for a grammar
position whose maximal importance reaches the threshold, `FN` for a grammar
position below it, `FP` for a non-grammar position reaching it, `TN`
otherwise. -/
def specAgreementLabel (a : Char) (m : ℚ) : String :=
  if a = 'G' then
    if relevanceThreshold ≤ m then "TP" else "FN"
  else
    if relevanceThreshold ≤ m then "FP" else "TN"

/-- A numpy array: a shape together with a total indexing function on
integer index lists (indices beyond the shape are immaterial). -/
structure NpArray where
  shape : List Nat
  data : List Nat → ℚ

/-- Python `np.expand_dims(a, axis=0)` (saliencyevaluator.py line 52): a new
leading axis of size 1; indexing drops the leading coordinate. -/
def expandDims0 (a : NpArray) : NpArray :=
  { shape := 1 :: a.shape, data := fun idx => a.data idx.tail }

/-- Python `np.transpose(a, axes)`: axis `k` of the result is axis `axes[k]` of
the input, so the result at index `i` is the input at the index `j` with
`j[axes[k]] = i[k]`, i.e. `j[m] = i[axes.indexOf m]`.  numpy requires
`axes` to be a permutation of `range(a.ndim)`, so `axes.length` is the
rank. -/
def npTranspose (a : NpArray) (axes : List Nat) : NpArray :=
  { shape := axes.map (fun k => a.shape.getD k 0),
    data := fun idx =>
      a.data ((List.range axes.length).map
        (fun m => idx.getD (List.indexOf m axes) 0)) }

/-- The layout normalization of `GradientBasedEvaluator._evaluate_model`
(lines 49-57): insert a singleton height axis, then permute with
`(1, 3, 0, 2)` from TensorFlow format `(1, N, W, C)` to Torch format
`(N, C, 1, W)`. -/
def toModelLayout (a : NpArray) : NpArray :=
  npTranspose (expandDims0 a) [1, 3, 0, 2]

/-- Python `np.squeeze(a, axis=2)`, the Torch-convention height squeeze of
`GradientBasedEvaluator._convert_to_data_frame` (lines 166-172). -/
def npSqueeze2 (a : NpArray) : NpArray :=
  { shape := a.shape.eraseIdx 2,
    data := fun idx => a.data (idx.take 2 ++ 0 :: idx.drop 2) }

/-- Modelled from the spec: normalizing back to the original layout.  The
height squeeze is `np.squeeze(axis=2)` from `_convert_to_data_frame`; the
inverse axis permutation `(0, 2, 1)` from `(N, C, W)` back to `(N, W, C)`
is not performed anywhere under `src/` (the consumer indexes the squeezed
Torch layout directly) and is taken from the spec's round-trip
description. -/
def normalizeBack (a : NpArray) : NpArray :=
  npTranspose (npSqueeze2 a) [0, 2, 1]

/-- Shape semantics of `torch.nn.functional.interpolate` in `linear` mode
on a rank-3 tensor `(N, C, L)`: the spatial axis is resized to `size`. -/
def interpolateLinearShape (s : List Nat) (size : Nat) : List Nat :=
  [s.getD 0 0, s.getD 1 0, size]

/-- Shape semantics of `GradCamGradientEvaluator._explainer_transform`
(saliencyevaluator.py lines 239-242):
`interpolate(result.view(1, 1, -1), size=data.shape[2], mode="linear")`.
`view(1, 1, -1)` flattens the explainer result to `(1, 1, numel)`; the
resize target is axis 2 of the input tensor `data`. -/
def gradCamTransformShape (dataShape : List Nat) (resultNumel : Nat) :
    List Nat :=
  interpolateLinearShape [1, 1, resultNumel] (dataShape.getD 2 0)

/-- The importance vector `importance_matrix[example_id, :, i]` across the
channel axis of the (squeezed, Torch-layout) importance matrix, modelled
as a function of example, channel and position. -/
def channelSlice (imp : Nat → Nat → Nat → ℚ) (numChannels eid pos : Nat) :
    List ℚ :=
  (List.range numChannels).map (fun ch => imp eid ch pos)

/-- Column `example_column` of `_convert_to_data_frame`:
`example_column += [example_id] * len(annotation)` inside
`for example_id, annotation in enumerate(annotations)`, started at
example index `k` (the code starts at 0). -/
def exampleColumn : Nat → List (List Char) → List Nat
  | _, [] => []
  | k, a :: rest => List.replicate a.length k ++ exampleColumn (k + 1) rest

/-- Column `position_column` of `_convert_to_data_frame`:
`position_column += list(range(1, len(annotation) + 1))`. -/
def positionColumn : List (List Char) → List Nat
  | [] => []
  | a :: rest => (List.range a.length).map (· + 1) ++ positionColumn rest

/-- Column `group_column` of `_convert_to_data_frame`: one agreement group per
annotation position, from the channel slice of the importance matrix. -/
def groupColumn (imp : Nat → Nat → Nat → ℚ) (numChannels : Nat) :
    Nat → List (List Char) → List (Option String)
  | _, [] => []
  | k, a :: rest =>
    a.enum.map (fun p =>
      getAgreementGroup relevanceThreshold p.2
        (channelSlice imp numChannels k p.1)) ++
      groupColumn imp numChannels (k + 1) rest

/-- Column `label_column` of `_convert_to_data_frame`:
`label_column += [y[example_id]] * len(annotation)` (out-of-range example
indices, an IndexError in Python, are given a default label). -/
def labelColumn (y : List String) : Nat → List (List Char) → List String
  | _, [] => []
  | k, a :: rest =>
    List.replicate a.length (y.getD k "") ++ labelColumn y (k + 1) rest

/-- The (example, position) keys of the result rows as the claim describes
them: example-major, position-minor, positions numbered `1` through the
annotation's length, example indices counting up from `k`. -/
def orderedRowKeys : Nat → List (List Char) → List (Nat × Nat)
  | _, [] => []
  | k, a :: rest =>
    (List.range a.length).map (fun i => (k, i + 1)) ++
      orderedRowKeys (k + 1) rest

/-- A sample encoded batch of shape `(2, 3, 4)` used as a concrete
witness input. -/
def sampleEncoded : NpArray :=
  { shape := [2, 3, 4],
    data := fun idx =>
      ((idx.getD 0 0) * 100 + (idx.getD 1 0) * 10 + idx.getD 2 0 : ℚ) }

/-- Exceptions that `_evaluate_model` can actually raise: the plain
`Exception` of `_check_tensor_dimensions`, and the `AttributeError`
produced when `calculate_saliency` calls `self.explainer.explain` on a
`None` explainer (the `NonlinearIntegratedGradientEvaluator` constructor,
lines 223-230, never assigns one).  There is no state-related error class
anywhere in the source. -/
inductive PyExn where
  | shapeExn (msg : String)
  | attributeExn
deriving DecidableEq

/-- Outcome of one `_evaluate_model` run: the final inference-mode and
gradient-tracking flags, whether the attribution strategy was invoked, and
the result or the exception that aborted the run. -/
structure EvalOutcome where
  finalEvalMode : Bool
  finalRequiresGrad : Bool
  strategyInvoked : Bool
  result : Except PyExn Unit
deriving DecidableEq

/-- Control flow of `GradientBasedEvaluator._evaluate_model`
(saliencyevaluator.py lines 37-78) at the state level: check the input
tensor shape; then unconditionally enable gradient tracking on the input
(`torch.autograd.Variable(encoded_x, requires_grad=True)`, line 70) and
switch the model to inference mode (`self.explainer.model.eval()`,
line 73); then call `calculate_saliency`, which fails with an attribute
error when the explainer is `None` and otherwise invokes the strategy;
finally check the output tensor shape.  The initial inference-mode and
gradient-tracking states are never inspected. -/
def evaluateModelFlow (lib : LibraryType) (space : SequenceSpaceType)
    (inputShape : List Nat) (explainerPresent : Bool)
    (initEvalMode initRequiresGrad : Bool) (outputShape : List Nat) :
    EvalOutcome :=
  match checkTensorDimensions lib space inputShape with
  | Except.error m =>
    { finalEvalMode := initEvalMode, finalRequiresGrad := initRequiresGrad,
      strategyInvoked := false, result := Except.error (PyExn.shapeExn m) }
  | Except.ok _ =>
    if explainerPresent then
      match checkTensorDimensions lib space outputShape with
      | Except.error m =>
        { finalEvalMode := true, finalRequiresGrad := true,
          strategyInvoked := true, result := Except.error (PyExn.shapeExn m) }
      | Except.ok _ =>
        { finalEvalMode := true, finalRequiresGrad := true,
          strategyInvoked := true, result := Except.ok () }
    else
      { finalEvalMode := true, finalRequiresGrad := true,
        strategyInvoked := false, result := Except.error PyExn.attributeExn }

/-- Test whether the first list is an initial segment of the second. -/
def leadsWith : List Char → List Char → Bool
  | [], _ => true
  | _ :: _, [] => false
  | b :: bs, a :: as => a == b && leadsWith bs as

/-- Test whether the first list contains the second as a contiguous
segment. -/
def hasSubstrChars : List Char → List Char → Bool
  | [], sub => sub.isEmpty
  | a :: ms, sub => leadsWith sub (a :: ms) || hasSubstrChars ms sub

/-- Containment of one string in another, on the underlying characters. -/
def strContains (m sub : String) : Bool :=
  hasSubstrChars m.data sub.data

/-- Characters allowed by the character class `[\_GC]` of the annotation
validation regex in `Learner.check_annotations` (learner.py line 185). -/
def isAnnChar (ch : Char) : Bool :=
  ch == '_' || ch == 'G' || ch == 'C'

/-- Semantics of Python `re.match("^[\_GC]*$", s)` as a Boolean:
with no MULTILINE flag, `$` matches at the end of the string or just
before a trailing newline, so the regex accepts exactly the strings of
class characters, optionally followed by one final newline. -/
def matchesAnnRegex (s : List Char) : Bool :=
  s.all isAnnChar || (s.getLastD 'x' == '\n' && s.dropLast.all isAnnChar)

/-- Loop body of `Learner.check_annotations` (learner.py lines 182-193):
a failing annotation flips `is_valid` to `False` and logs one warning
(collected here in the second component); a passing one changes
nothing. -/
def checkAnnotationsStep (acc : Bool × List (List Char)) (a : List Char) :
    Bool × List (List Char) :=
  if matchesAnnRegex a then acc else (false, acc.2 ++ [a])

/-- Embedding of `Learner.check_annotations`: fold the loop body over the
annotations, starting from `is_valid = True` and no warnings.  The
function always returns; it raises nothing. -/
def checkAnnotations (anns : List (List Char)) : Bool × List (List Char) :=
  anns.foldl checkAnnotationsStep (true, [])

/-- Embedding of `Learner.parse_annotations_data` (learner.py lines
134-156) after the file read: when validation is enabled it calls
`check_annotations` and DISCARDS the returned flag, then calls
`check_labels`, which is the only call that can raise (modelled by the
`labelsOk` flag); the parsed data is returned unchanged. -/
def parseAnnotationsData (validateData labelsOk : Bool)
    (anns y : List (List Char)) :
    Except String (List (List Char) × List (List Char)) :=
  if validateData then
    let _ := checkAnnotations anns
    if labelsOk then Except.ok (anns, y)
    else Except.error "examples with invalid label"
  else Except.ok (anns, y)

/-- State of the path handed to `MiscHelper.prepare_path`: nothing there,
an existing non-directory (regular file), or an existing directory with
`numFiles` top-level regular files (the entries counted by
`os.path.isfile(path + name)`) and `numSubdirs` other entries. -/
inductive FsNode where
  | file
  | dir (numFiles : Nat) (numSubdirs : Nat)
deriving DecidableEq

/-- Embedding of `MiscHelper.prepare_path` (mischelper.py lines 13-38) on
the abstract path state: raise if a non-directory exists; for a non-empty
directory, raise when it holds at least one top-level regular file and
`allow_exists` is false, leave it unchanged when it holds one and
`allow_exists` is true, and delete the whole tree and recreate it empty
when it holds none (the `else` of `if num_files > 0`, reached regardless
of `allow_exists`); create the directory when nothing exists; leave an
existing empty directory alone. -/
def preparePath (node : Option FsNode) (allowExists : Bool) :
    Except String (Option FsNode) :=
  match node with
  | none => Except.ok (some (FsNode.dir 0 0))
  | some FsNode.file =>
    Except.error "directory cannot be created (file with same name exists)"
  | some (FsNode.dir nf nd) =>
    if nf + nd > 0 then
      if nf > 0 then
        if ¬ allowExists then
          Except.error "directory cannot be created (non-empty folder with same name exists)"
        else
          Except.ok (some (FsNode.dir nf nd))
      else
        Except.ok (some (FsNode.dir 0 0))
    else
      Except.ok (some (FsNode.dir nf nd))

end Seqgra

namespace Seqgra

/-- C1: for every annotation symbol and every non-empty importance vector
at a position, `__get_agreement_group` assigns exactly one agreement label,
namely the one obtained by taking the maximum of the importance values
across the channel axis and comparing it with the relevance threshold
(default 0.1) according to the claim's truth table: TP iff the symbol is G
and the maximum is at least the threshold, FN iff G and below, FP iff not G
and at least, TN iff not G and below. -/
theorem c1_agreement_truth_table (a : Char) (v : List ℚ) (h : v ≠ []) :
    ∃ m : ℚ, npMax v = some m ∧
      getAgreementGroup relevanceThreshold a v = some (specAgreementLabel a m) := by
  match v with
  | [] => exact absurd rfl h
  | x :: xs =>
    refine ⟨xs.foldl qMax x, rfl, ?_⟩
    by_cases hG : a = 'G' <;> by_cases hm : xs.foldl qMax x < relevanceThreshold
    · simp [getAgreementGroup, npMax, specAgreementLabel, grammarPositionChar,
            hG, hm, hm.not_le]
    · simp [getAgreementGroup, npMax, specAgreementLabel, grammarPositionChar,
            hG, hm, not_lt.mp hm]
    · simp [getAgreementGroup, npMax, specAgreementLabel, grammarPositionChar,
            hG, hm, hm.not_le]
    · simp [getAgreementGroup, npMax, specAgreementLabel, grammarPositionChar,
            hG, hm, not_lt.mp hm]

/-- C1 witness: annotation symbol `G` with importance vector `[1/2]`. -/
theorem c1_agreement_truth_table_witness :
    ∃ m : ℚ, npMax [mkRat 1 2] = some m ∧
      getAgreementGroup relevanceThreshold 'G' [mkRat 1 2] =
        some (specAgreementLabel 'G' m) :=
  c1_agreement_truth_table 'G' [mkRat 1 2] (by decide)

/-- C2: `_check_tensor_dimensions` accepts a tensor shape if and only if
its rank is 3 or 4, the convention-dependent channel axis equals the
alphabet size (4 for DNA, 20 for protein), and, for rank 4, the designated
height axis equals exactly 1; in particular a channel count off by one
(shape (2, 5, 1, 10) for DNA/Torch) and a height axis of size 2
(shape (2, 4, 2, 10)) are rejected. -/
theorem c2_validate_shape_characterization :
    (∀ (lib : LibraryType) (space : SequenceSpaceType) (shape : List Nat),
      checkTensorDimensions lib space shape = Except.ok () ↔
        ((shape.length = 3 ∧
            shape.getD (channelAxisRank3 lib) 0 = alphabetSize space) ∨
         (shape.length = 4 ∧
            shape.getD (channelAxisRank4 lib) 0 = alphabetSize space ∧
            shape.getD (heightAxisRank4 lib) 0 = 1))) ∧
    (checkTensorDimensions LibraryType.torch SequenceSpaceType.dna
        [2, 5, 1, 10]).isOk = false ∧
    (checkTensorDimensions LibraryType.torch SequenceSpaceType.dna
        [2, 4, 2, 10]).isOk = false := by
  refine ⟨?_, by decide, by decide⟩
  intro lib space shape
  cases lib <;> cases space <;>
    simp only [checkTensorDimensions, channelAxisRank3, channelAxisRank4,
               heightAxisRank4, alphabetSize] <;>
    split_ifs <;> simp_all

/-- C3: on every encoded batch tensor of shape `(N, Width, Channels)`, the
layout normalization of `_evaluate_model` (insert singleton height axis,
then permute with `(1, 3, 0, 2)`) yields Convention B shape
`(N, Channels, 1, Width)`, and the value at index `(n, c, 0, w)` is the
input value at index `(n, w, c)`. -/
theorem c3_layout_normalization (x : NpArray) (n w c : Nat)
    (h : x.shape = [n, w, c]) :
    (toModelLayout x).shape = [n, c, 1, w] ∧
    ∀ i j k, (toModelLayout x).data [i, j, 0, k] = x.data [i, k, j] := by
  constructor
  · simp [toModelLayout, npTranspose, expandDims0, h]
  · intro i j k
    rfl

/-- C3 witness: the sample `(2, 3, 4)` batch, evaluated at index
`(1, 2, 0, 1)` of the normalized tensor. -/
theorem c3_layout_normalization_witness :
    (toModelLayout sampleEncoded).shape = [2, 4, 1, 3] ∧
    (toModelLayout sampleEncoded).data [1, 2, 0, 1] =
      sampleEncoded.data [1, 1, 2] :=
  ⟨(c3_layout_normalization sampleEncoded 2 3 4 rfl).1,
   (c3_layout_normalization sampleEncoded 2 3 4 rfl).2 1 2 1⟩

/-- C6: normalizing an encoded `(N, Width, Channels)` tensor to the model
convention and then back (convention-aware height squeeze followed by the
inverse axis permutation) recovers the original tensor exactly: same shape
and the same value at every index. -/
theorem c6_layout_round_trip (x : NpArray) (n w c : Nat)
    (h : x.shape = [n, w, c]) :
    (normalizeBack (toModelLayout x)).shape = [n, w, c] ∧
    ∀ i j k, (normalizeBack (toModelLayout x)).data [i, j, k] =
      x.data [i, j, k] := by
  constructor
  · simp [normalizeBack, npSqueeze2, toModelLayout, npTranspose,
          expandDims0, h]
  · intro i j k
    rfl

/-- C6 witness: the round trip on the sample `(2, 3, 4)` batch, evaluated
at index `(1, 2, 3)`. -/
theorem c6_layout_round_trip_witness :
    (normalizeBack (toModelLayout sampleEncoded)).shape = [2, 3, 4] ∧
    (normalizeBack (toModelLayout sampleEncoded)).data [1, 2, 3] =
      sampleEncoded.data [1, 2, 3] :=
  ⟨(c6_layout_round_trip sampleEncoded 2 3 4 rfl).1,
   (c6_layout_round_trip sampleEncoded 2 3 4 rfl).2 1 2 3⟩

/-- C4: the Grad-CAM output transform does NOT upsample to the input width.
On a batch of one 100-position DNA sequence, encoded by `_evaluate_model`
to Torch shape `(1, 4, 1, 100)`, and an explainer output of native
resolution 25, `_explainer_transform` interpolates to
`size = data.shape[2] = 1` (the singleton height axis, not the width),
producing shape `(1, 1, 1)`, which is not 100 positions wide and is then
rejected by `_check_tensor_dimensions`. -/
lemma exampleColumn_length (anns : List (List Char)) :
    ∀ k, (exampleColumn k anns).length = (anns.map List.length).sum := by
  induction anns with
  | nil => intro k; rfl
  | cons a rest ih => intro k; simp [exampleColumn, ih]

lemma positionColumn_length (anns : List (List Char)) :
    (positionColumn anns).length = (anns.map List.length).sum := by
  induction anns with
  | nil => rfl
  | cons a rest ih => simp [positionColumn, ih]

lemma groupColumn_length (imp : Nat → Nat → Nat → ℚ) (nc : Nat)
    (anns : List (List Char)) :
    ∀ k, (groupColumn imp nc k anns).length = (anns.map List.length).sum := by
  induction anns with
  | nil => intro k; rfl
  | cons a rest ih => intro k; simp [groupColumn, ih]

lemma labelColumn_length (y : List String) (anns : List (List Char)) :
    ∀ k, (labelColumn y k anns).length = (anns.map List.length).sum := by
  induction anns with
  | nil => intro k; rfl
  | cons a rest ih => intro k; simp [labelColumn, ih]

lemma zip_columns_eq_orderedRowKeys (anns : List (List Char)) :
    ∀ k, (exampleColumn k anns).zip (positionColumn anns) =
      orderedRowKeys k anns := by
  induction anns with
  | nil => intro k; rfl
  | cons a rest ih =>
    intro k
    have h1 : List.replicate a.length k =
        (List.range a.length).map (Function.const Nat k) := by
      rw [List.map_const, List.length_range]
    rw [exampleColumn, positionColumn, orderedRowKeys,
        List.zip_append (by simp), h1, List.zip_map', ih]
    rfl

lemma orderedRowKeys_mem (anns : List (List Char)) :
    ∀ k e p, (e, p) ∈ orderedRowKeys k anns ↔
      ∃ j, j < anns.length ∧ e = k + j ∧
        ∃ i, i < (anns.getD j []).length ∧ p = i + 1 := by
  induction anns with
  | nil => intro k e p; simp [orderedRowKeys]
  | cons a rest ih =>
    intro k e p
    rw [orderedRowKeys]
    simp only [List.mem_append, List.mem_map, List.mem_range, ih]
    constructor
    · rintro (⟨i, hi, heq⟩ | ⟨j, hj, he, i, hi, hp⟩)
      · cases heq
        exact ⟨0, Nat.succ_pos _, by omega, i, hi, rfl⟩
      · exact ⟨j + 1, Nat.succ_lt_succ hj, by omega, i, hi, hp⟩
    · rintro ⟨j, hj, he, i, hi, hp⟩
      cases j with
      | zero =>
        left
        exact ⟨i, by simpa using hi, by simp [he, hp]⟩
      | succ j =>
        right
        exact ⟨j, Nat.lt_of_succ_lt_succ hj, by omega, i, by simpa using hi, hp⟩

lemma orderedRowKeys_nodup (anns : List (List Char)) :
    ∀ k, (orderedRowKeys k anns).Nodup := by
  induction anns with
  | nil => intro k; simp [orderedRowKeys]
  | cons a rest ih =>
    intro k
    rw [orderedRowKeys]
    refine List.Nodup.append ?_ (ih (k + 1)) ?_
    · refine List.Nodup.map ?_ (List.nodup_range _)
      intro i j hij
      simp only [Prod.mk.injEq] at hij
      omega
    · rintro ⟨e, p⟩ h1 h2
      simp only [List.mem_map, List.mem_range, Prod.mk.injEq] at h1
      obtain ⟨i, _, hk, _⟩ := h1
      rw [orderedRowKeys_mem] at h2
      obtain ⟨j, _, he, _⟩ := h2
      omega

/-- C5: `_convert_to_data_frame` produces exactly one row per
(example, position) pair, in example-major, position-minor order, with
0-based example indices and positions numbered 1 through the length of
each example's annotation; all four columns have one entry per such pair
(the row count is governed by the annotation lengths, never by the
importance tensor), the key list is duplicate-free, its members are
exactly the pairs `(e, i + 1)` with `e` an example index and `i` a
position of that example's annotation, and an annotation of length 0
contributes zero rows. -/
theorem c5_result_rows (anns : List (List Char)) (y : List String)
    (imp : Nat → Nat → Nat → ℚ) (nc : Nat) :
    (exampleColumn 0 anns).zip (positionColumn anns) =
      orderedRowKeys 0 anns ∧
    (exampleColumn 0 anns).length = (anns.map List.length).sum ∧
    (positionColumn anns).length = (anns.map List.length).sum ∧
    (groupColumn imp nc 0 anns).length = (anns.map List.length).sum ∧
    (labelColumn y 0 anns).length = (anns.map List.length).sum ∧
    (orderedRowKeys 0 anns).Nodup ∧
    (∀ e p, (e, p) ∈ orderedRowKeys 0 anns ↔
      e < anns.length ∧
        ∃ i, i < (anns.getD e []).length ∧ p = i + 1) ∧
    orderedRowKeys 0 ([] :: anns) = orderedRowKeys 1 anns := by
  refine ⟨zip_columns_eq_orderedRowKeys anns 0, exampleColumn_length anns 0,
    positionColumn_length anns, groupColumn_length imp nc anns 0,
    labelColumn_length y anns 0, orderedRowKeys_nodup anns 0, ?_, by
      rw [orderedRowKeys]; simp⟩
  intro e p
  rw [orderedRowKeys_mem]
  constructor
  · rintro ⟨j, hj, he, hi⟩
    exact ⟨by omega, by simpa [he] using hi⟩
  · rintro ⟨he, hi⟩
    exact ⟨e, he, by omega, hi⟩

theorem c4_gradcam_resize_code_bug :
    gradCamTransformShape [1, 4, 1, 100] 25 = [1, 1, 1] ∧
    (gradCamTransformShape [1, 4, 1, 100] 25).getD 2 0 ≠ 100 ∧
    (checkTensorDimensions LibraryType.torch SequenceSpaceType.dna
        (gradCamTransformShape [1, 4, 1, 100] 25)).isOk = false := by
  decide

/-- C7 counterexample: with the model initially NOT in inference mode and
the input initially without gradient tracking, a run of `_evaluate_model`
with a present explainer and valid shapes succeeds and invokes the
strategy: no state-related error is raised before the attribution
computation, contradicting the claim. -/
theorem c7_counterexample_no_state_error :
    (evaluateModelFlow LibraryType.torch SequenceSpaceType.dna [1, 4, 1, 100]
        true false false [1, 4, 1, 100]).result = Except.ok () ∧
    (evaluateModelFlow LibraryType.torch SequenceSpaceType.dna [1, 4, 1, 100]
        true false false [1, 4, 1, 100]).strategyInvoked = true := by
  decide

/-- C7 amended: no attribution strategy variant checks inference mode or
gradient tracking; `_evaluate_model` itself enables gradient tracking on
the input and switches the model to inference mode, so whenever the
strategy is invoked both flags hold, for every initial state; once the
input shape check passes the strategy is always invoked; and the nonlinear
integrated gradients evaluator, whose explainer is never constructed,
fails with an attribute error (not a state error) without invoking any
strategy. -/
theorem c7_state_established_before_strategy (lib : LibraryType)
    (space : SequenceSpaceType) (inputShape outputShape : List Nat)
    (iE iG : Bool) :
    ((evaluateModelFlow lib space inputShape true iE iG
        outputShape).strategyInvoked = true →
      (evaluateModelFlow lib space inputShape true iE iG
        outputShape).finalEvalMode = true ∧
      (evaluateModelFlow lib space inputShape true iE iG
        outputShape).finalRequiresGrad = true) ∧
    (checkTensorDimensions lib space inputShape = Except.ok () →
      (evaluateModelFlow lib space inputShape true iE iG
        outputShape).strategyInvoked = true) ∧
    (checkTensorDimensions lib space inputShape = Except.ok () →
      (evaluateModelFlow lib space inputShape false iE iG
        outputShape).result = Except.error PyExn.attributeExn ∧
      (evaluateModelFlow lib space inputShape false iE iG
        outputShape).strategyInvoked = false) := by
  cases hc : checkTensorDimensions lib space inputShape with
  | error m =>
    refine ⟨?_, ?_, ?_⟩ <;> simp [evaluateModelFlow, hc]
  | ok u =>
    cases u
    cases hr : checkTensorDimensions lib space outputShape with
    | error m2 =>
      refine ⟨?_, ?_, ?_⟩ <;> simp [evaluateModelFlow, hc, hr]
    | ok u2 =>
      cases u2
      refine ⟨?_, ?_, ?_⟩ <;> simp [evaluateModelFlow, hc, hr]

/-- C7 witness: a nonlinear-integrated-gradients run (explainer absent) on
a valid input shape fails with the attribute error without invoking any
strategy. -/
theorem c7_state_established_before_strategy_witness :
    (evaluateModelFlow LibraryType.torch SequenceSpaceType.dna [1, 4, 1, 100]
        false false false [1, 4, 1, 100]).result =
      Except.error PyExn.attributeExn ∧
    (evaluateModelFlow LibraryType.torch SequenceSpaceType.dna [1, 4, 1, 100]
        false false false [1, 4, 1, 100]).strategyInvoked = false :=
  (c7_state_established_before_strategy LibraryType.torch
    SequenceSpaceType.dna [1, 4, 1, 100] [1, 4, 1, 100] false false).2.2
    (by decide)

lemma leadsWith_append (sub t : List Char) :
    leadsWith sub (sub ++ t) = true := by
  induction sub with
  | nil => rfl
  | cons b bs ih => simp [leadsWith, ih]

lemma hasSubstrChars_nil (m : List Char) : hasSubstrChars m [] = true := by
  cases m <;> simp [hasSubstrChars, leadsWith]

lemma hasSubstrChars_self_append (sub ys : List Char) :
    hasSubstrChars (sub ++ ys) sub = true := by
  cases sub with
  | nil => simpa using hasSubstrChars_nil ys
  | cons c cs =>
    have h := leadsWith_append (c :: cs) ys
    simp only [List.cons_append] at h ⊢
    simp [hasSubstrChars, h]

lemma hasSubstrChars_append (xs sub ys : List Char) :
    hasSubstrChars (xs ++ sub ++ ys) sub = true := by
  induction xs with
  | nil => simpa using hasSubstrChars_self_append sub ys
  | cons x xs ih =>
    simp only [List.cons_append, List.append_assoc] at ih ⊢
    simp [hasSubstrChars, ih]

lemma strContains_append (pre sub post : String) :
    strContains (pre ++ sub ++ post) sub = true := by
  rw [strContains, String.data_append, String.data_append]
  exact hasSubstrChars_append _ _ _

lemma strContains_append_right (pre sub : String) :
    strContains (pre ++ sub) sub = true := by
  rw [strContains, String.data_append]
  simpa using hasSubstrChars_append pre.data sub.data []

lemma not_decomposable_of_strContains_false (m sub : String)
    (h : strContains m sub = false) :
    ∀ pre post, m ≠ pre ++ sub ++ post := by
  intro pre post heq
  rw [heq, strContains_append] at h
  cases h

/-- C8 counterexample: the channel-count rejection of a tensor of shape
(2, 5, 1, 10) in DNA sequence space produces the message
"tensor shape invalid for DNA sequence space: expected 4 channels, got 5",
which contains neither the actual shape "(2, 5, 1, 10)" nor the
expected-shape description "(N, C, W) or (N, C, 1, W)", so not every
rejection message includes both. -/
theorem c8_counterexample_channel_message :
    checkTensorDimensions LibraryType.torch SequenceSpaceType.dna
        [2, 5, 1, 10] =
      Except.error "tensor shape invalid for DNA sequence space: expected 4 channels, got 5" ∧
    strContains "tensor shape invalid for DNA sequence space: expected 4 channels, got 5"
        (shapeStr [2, 5, 1, 10]) = false ∧
    strContains "tensor shape invalid for DNA sequence space: expected 4 channels, got 5"
        (expectedShapeDescription LibraryType.torch) = false := by
  decide

/-- C8 amended: a rank rejection carries a message containing both the
expected-shape description and the actual shape; a channel or height
rejection carries the expected and actual value of the offending
dimension; in particular shape (2, 5, 1, 10) in DNA sequence space is
rejected with a message referencing the expected channel count 4 and the
actual channel count 5, and a height of 2 is rejected referencing the
actual height. -/
theorem c8_rejection_message_contents :
    (∀ (lib : LibraryType) (space : SequenceSpaceType) (shape : List Nat),
      shape.length ≠ 3 → shape.length ≠ 4 →
        checkTensorDimensions lib space shape =
          Except.error ("tensor shape invalid: expected " ++
            expectedShapeDescription lib ++ ", got " ++ shapeStr shape) ∧
        strContains ("tensor shape invalid: expected " ++
            expectedShapeDescription lib ++ ", got " ++ shapeStr shape)
          (expectedShapeDescription lib) = true ∧
        strContains ("tensor shape invalid: expected " ++
            expectedShapeDescription lib ++ ", got " ++ shapeStr shape)
          (shapeStr shape) = true) ∧
    (checkTensorDimensions LibraryType.torch SequenceSpaceType.dna
        [2, 5, 1, 10] =
      Except.error "tensor shape invalid for DNA sequence space: expected 4 channels, got 5" ∧
      strContains "tensor shape invalid for DNA sequence space: expected 4 channels, got 5"
        "expected 4 channels" = true ∧
      strContains "tensor shape invalid for DNA sequence space: expected 4 channels, got 5"
        "got 5" = true) ∧
    (checkTensorDimensions LibraryType.torch SequenceSpaceType.dna
        [2, 4, 2, 10] =
      Except.error "tensor shape invalid: expected height dimension size of none or 1, got 2" ∧
      strContains "tensor shape invalid: expected height dimension size of none or 1, got 2"
        "got 2" = true) := by
  refine ⟨?_, by decide, by decide⟩
  intro lib space shape h3 h4
  refine ⟨?_, ?_, ?_⟩
  · simp [checkTensorDimensions, h3, h4]
  · rw [String.append_assoc ("tensor shape invalid: expected " ++
      expectedShapeDescription lib) ", got " (shapeStr shape)]
    exact strContains_append "tensor shape invalid: expected "
      (expectedShapeDescription lib) (", got " ++ shapeStr shape)
  · exact strContains_append_right _ _

/-- C8 witness: a rank-2 tensor of shape (2, 5) under the Torch
convention, DNA sequence space. -/
theorem c8_rejection_message_contents_witness :
    checkTensorDimensions LibraryType.torch SequenceSpaceType.dna [2, 5] =
      Except.error ("tensor shape invalid: expected " ++
        expectedShapeDescription LibraryType.torch ++ ", got " ++
        shapeStr [2, 5]) ∧
    strContains ("tensor shape invalid: expected " ++
        expectedShapeDescription LibraryType.torch ++ ", got " ++
        shapeStr [2, 5]) (expectedShapeDescription LibraryType.torch) =
      true ∧
    strContains ("tensor shape invalid: expected " ++
        expectedShapeDescription LibraryType.torch ++ ", got " ++
        shapeStr [2, 5]) (shapeStr [2, 5]) = true :=
  c8_rejection_message_contents.1 LibraryType.torch SequenceSpaceType.dna
    [2, 5] (by decide) (by decide)

lemma checkAnnotations_foldl (anns : List (List Char)) :
    ∀ acc : Bool × List (List Char),
      (anns.foldl checkAnnotationsStep acc).1 =
        (acc.1 && anns.all matchesAnnRegex) ∧
      (anns.foldl checkAnnotationsStep acc).2 =
        acc.2 ++ anns.filter (fun a => ! matchesAnnRegex a) := by
  induction anns with
  | nil => intro acc; simp
  | cons a rest ih =>
    intro acc
    rw [List.foldl_cons]
    by_cases hm : matchesAnnRegex a
    · have hstep : checkAnnotationsStep acc a = acc := by
        simp [checkAnnotationsStep, hm]
      rw [hstep]
      rcases ih acc with ⟨h1, h2⟩
      refine ⟨?_, ?_⟩
      · rw [h1]; simp [hm]
      · rw [h2]; simp [hm]
    · have hstep : checkAnnotationsStep acc a = (false, acc.2 ++ [a]) := by
        simp [checkAnnotationsStep, hm]
      rw [hstep]
      rcases ih (false, acc.2 ++ [a]) with ⟨h1, h2⟩
      refine ⟨?_, ?_⟩
      · rw [h1]; simp [hm]
      · rw [h2]; simp [hm, List.filter_cons]

/-- C9 counterexample: the annotation "G\n" contains the character '\n',
which is outside the class, yet `check_annotations` neither warns nor
returns `False` on it, because Python's `$` also matches before a trailing
newline; so it is not true that every string containing a character
outside the class yields a warning and a `False` return. -/
theorem c9_counterexample_trailing_newline :
    isAnnChar (Char.ofNat 10) = false ∧
    Char.ofNat 10 ∈ ['G', Char.ofNat 10] ∧
    (checkAnnotations [['G', Char.ofNat 10]]).1 = true ∧
    (checkAnnotations [['G', Char.ofNat 10]]).2 = [] := by
  decide

/-- C9 amended: annotation validation never raises.  With valid labels,
`parse_annotations_data` returns the parsed data for every annotation
list, whether or not validation is enabled, since the flag returned by
`check_annotations` is discarded; and every annotation failing the regex
full-match of the class (which, by Python `$` semantics, also accepts one
trailing newline after otherwise valid symbols) makes `check_annotations`
return `False` and appear in the warning log. -/
theorem c9_invalid_annotations_never_abort :
    (∀ (validateData : Bool) (anns y : List (List Char)),
      parseAnnotationsData validateData true anns y =
        Except.ok (anns, y)) ∧
    (∀ (anns : List (List Char)) (a : List Char), a ∈ anns →
      matchesAnnRegex a = false →
        (checkAnnotations anns).1 = false ∧
        a ∈ (checkAnnotations anns).2) := by
  constructor
  · intro v anns y
    cases v <;> simp [parseAnnotationsData]
  · intro anns a ha hm
    rcases checkAnnotations_foldl anns (true, []) with ⟨h1, h2⟩
    constructor
    · rw [checkAnnotations, h1]
      simp only [Bool.true_and, List.all_eq_false]
      exact ⟨a, ha, by simp [hm]⟩
    · rw [checkAnnotations, h2]
      simp [List.mem_filter, ha, hm]

/-- C9 witness: parsing succeeds on the single annotation "X", and this
invalid annotation flips the flag and is logged. -/
theorem c9_invalid_annotations_never_abort_witness :
    parseAnnotationsData true true [['X']] [] =
      Except.ok ([['X']], []) ∧
    (checkAnnotations [['X']]).1 = false ∧
    ['X'] ∈ (checkAnnotations [['X']]).2 :=
  ⟨c9_invalid_annotations_never_abort.1 true [['X']] [],
   c9_invalid_annotations_never_abort.2 [['X']] ['X'] (by decide)
     (by decide)⟩

/-- C10: `prepare_path` on an existing directory holding at least one
entry but no top-level regular file deletes the tree and recreates it
empty, even when `allow_exists` is false; on a directory holding a regular
file with `allow_exists` true it leaves everything unchanged; and it
raises exactly when the path names an existing non-directory, or the
directory holds at least one regular file and `allow_exists` is false. -/
theorem c10_prepare_path (nf nd : Nat) (aE : Bool) :
    (0 < nd → nf = 0 →
      preparePath (some (FsNode.dir nf nd)) aE =
        Except.ok (some (FsNode.dir 0 0))) ∧
    (0 < nf →
      preparePath (some (FsNode.dir nf nd)) true =
        Except.ok (some (FsNode.dir nf nd))) ∧
    (∀ node : Option FsNode,
      (∃ msg, preparePath node aE = Except.error msg) ↔
        (node = some FsNode.file ∨
          ∃ nf2 nd2, node = some (FsNode.dir nf2 nd2) ∧
            0 < nf2 ∧ aE = false)) := by
  refine ⟨?_, ?_, ?_⟩
  · intro hd hf
    subst hf
    simp [preparePath, hd]
  · intro hf
    have hpos : 0 < nf + nd := by omega
    simp [preparePath, hpos, hf]
  · intro node
    cases node with
    | none => simp [preparePath]
    | some x =>
      cases x with
      | file => simp [preparePath]
      | dir nf2 nd2 =>
        simp only [preparePath]
        split_ifs with h1 h2 h3 <;> simp_all

/-- C10 witness: a directory with one subdirectory and no files is wiped
and recreated even with `allow_exists = false`; a directory with files is
left unchanged when `allow_exists = true`. -/
theorem c10_prepare_path_witness :
    preparePath (some (FsNode.dir 0 1)) false =
      Except.ok (some (FsNode.dir 0 0)) ∧
    preparePath (some (FsNode.dir 2 1)) true =
      Except.ok (some (FsNode.dir 2 1)) :=
  ⟨(c10_prepare_path 0 1 false).1 (by decide) rfl,
   (c10_prepare_path 2 1 true).2.1 (by decide)⟩

end Seqgra
